import Mathlib

/-!
Shallow embedding of the Litra HID driver (`src/dist/commonjs/driver.js`).

JS numbers are modelled as rationals (`ℚ`); every value the claims exercise
is exactly representable.  A HID output report is a list of the raw JS
numbers pushed into the array handed to `hid.write` (`List ℚ`); byte
truncation, if any, happens in the external HID layer, not in this library.
Functions that can `throw` return `Except String α`; a successful setter
returns the single report it writes, so an error value means no report was
written.  The helpers `padRight`, `integerToBytes` and
`percentageWithinRange` live in the repository's `utils` module, which is
not under `src/`; they are modelled from the spec (doc comments say so).
-/

/-- Device types, from the `DeviceType` enum in `driver.js`. -/
inductive DeviceType where
  | litra_glow
  | litra_beam
  deriving DecidableEq, Repr

/-- A device handle: its classified type plus the opaque raw HID handle
(modelled by the path string it was opened from). -/
structure Device where
  type : DeviceType
  hid : String
  deriving DecidableEq, Repr

/-- An entry of the enumeration returned by the external HID layer. -/
structure HidDeviceInfo where
  vendorId : ℕ
  productId : ℕ
  usagePage : ℕ
  path : String
  deriving DecidableEq, Repr

def VENDOR_ID : ℕ := 0x046d

def PRODUCT_IDS : List ℕ := [0xc900, 0xc901]

def USAGE_PAGE : ℕ := 0xff43

def MINIMUM_BRIGHTNESS_IN_LUMEN_BY_DEVICE_TYPE : DeviceType → ℕ
  | .litra_glow => 20
  | .litra_beam => 30

def MAXIMUM_BRIGHTNESS_IN_LUMEN_BY_DEVICE_TYPE : DeviceType → ℕ
  | .litra_glow => 250
  | .litra_beam => 400

def MINIMUM_TEMPERATURE_IN_KELVIN_BY_DEVICE_TYPE : DeviceType → ℕ
  | .litra_glow => 2700
  | .litra_beam => 2700

def MAXIMUM_TEMPERATURE_IN_KELVIN_BY_DEVICE_TYPE : DeviceType → ℕ
  | .litra_glow => 6500
  | .litra_beam => 6500

def getMinimumBrightnessInLumenForDevice (device : Device) : ℕ :=
  MINIMUM_BRIGHTNESS_IN_LUMEN_BY_DEVICE_TYPE device.type

def getMaximumBrightnessInLumenForDevice (device : Device) : ℕ :=
  MAXIMUM_BRIGHTNESS_IN_LUMEN_BY_DEVICE_TYPE device.type

def getMinimumTemperatureInKelvinForDevice (device : Device) : ℕ :=
  MINIMUM_TEMPERATURE_IN_KELVIN_BY_DEVICE_TYPE device.type

def getMaximumTemperatureInKelvinForDevice (device : Device) : ℕ :=
  MAXIMUM_TEMPERATURE_IN_KELVIN_BY_DEVICE_TYPE device.type

/-- JS `Number.isInteger` on our model of JS numbers. -/
def isJsInteger (q : ℚ) : Prop := q.den = 1

instance (q : ℚ) : Decidable (isJsInteger q) :=
  inferInstanceAs (Decidable (q.den = 1))

/-- JS `Math.round`: nearest integer, ties rounded toward positive infinity. -/
def jsRound (x : ℚ) : ℤ := (x + 1 / 2).floor

/-- Modelled from the spec: `padRight` from the repository's `utils` module
(not under `src/`): reports are "right-padded with zero bytes to a fixed
total length of 20 bytes" — the array is extended with the pad value up to
the requested length. -/
def padRight (values : List ℚ) (length : ℕ) (value : ℚ) : List ℚ :=
  values ++ List.replicate (length - values.length) value

/-- Modelled from the spec: `integerToBytes` from the repository's `utils`
module (not under `src/`): an integral value is encoded "as a 2-byte
big-endian-or-device-specific integer encoding" — high byte then low byte. -/
def integerToBytes (value : ℚ) : List ℚ :=
  [((value.floor / 256 % 256 : ℤ) : ℚ), ((value.floor % 256 : ℤ) : ℚ)]

/-- Modelled from the spec: `percentageWithinRange` from the repository's
`utils` module (not under `src/`): "percentage > 0 maps via linear
interpolation: `min + round(percentage/100 × (max - min))`" with
nearest-integer rounding. -/
def percentageWithinRange (percentage startRange endRange : ℚ) : ℚ :=
  startRange + (jsRound (percentage / 100 * (endRange - startRange)) : ℚ)

instance : DecidableEq (Except String (List ℚ)) := fun x y =>
  match x, y with
  | Except.ok a, Except.ok b => decidable_of_iff (a = b) (by simp)
  | Except.error a, Except.error b => decidable_of_iff (a = b) (by simp)
  | Except.ok _, Except.error _ => isFalse (by simp)
  | Except.error _, Except.ok _ => isFalse (by simp)

def isMatchingDevice (device : HidDeviceInfo) : Bool :=
  device.vendorId == VENDOR_ID &&
    PRODUCT_IDS.contains device.productId &&
    device.usagePage == USAGE_PAGE

def getDeviceTypeByProductId (productId : ℕ) : Except String DeviceType :=
  if productId = 0xc900 then Except.ok DeviceType.litra_glow
  else if productId = 0xc901 then Except.ok DeviceType.litra_beam
  else Except.error "Unknown device type"

/-- `findDevice`, with the external HID layer's enumeration passed in as an
explicit argument.  Returns `some device` for the first matching entry,
`none` when nothing matches, and propagates the (unreachable) classification
error through `Except`. -/
def findDevice (devices : List HidDeviceInfo) : Except String (Option Device) :=
  match devices.find? isMatchingDevice with
  | some matchingDevice =>
      (getDeviceTypeByProductId matchingDevice.productId).map
        (fun t => some { type := t, hid := matchingDevice.path })
  | none => Except.ok none

def turnOn (_device : Device) : List ℚ :=
  padRight [0x11, 0xff, 0x04, 0x1c, 0x01] 20 0x00

def turnOff (_device : Device) : List ℚ :=
  padRight [0x11, 0xff, 0x04, 0x1c, 0x00] 20 0x00

def setTemperatureInKelvin (device : Device) (temperatureInKelvin : ℚ) :
    Except String (List ℚ) :=
  if ¬ isJsInteger temperatureInKelvin then
    Except.error "Provided temperature must be an integer"
  else
    let minimumTemperature := getMinimumTemperatureInKelvinForDevice device
    let maximumTemperature := getMaximumTemperatureInKelvinForDevice device
    if temperatureInKelvin < (minimumTemperature : ℚ) ∨
        temperatureInKelvin > (maximumTemperature : ℚ) then
      Except.error ("Provided temperature must be between " ++
        toString minimumTemperature ++ " and " ++ toString maximumTemperature ++
        " for this device")
    else
      Except.ok (padRight ([0x11, 0xff, 0x04, 0x9c] ++
        integerToBytes temperatureInKelvin) 20 0x00)

def setTemperaturePercentage (device : Device) (temperaturePercentage : ℚ) :
    Except String (List ℚ) :=
  if temperaturePercentage < 0 ∨ temperaturePercentage > 100 then
    Except.error "Percentage must be between 0 and 100"
  else
    let minimumTemperature := getMinimumTemperatureInKelvinForDevice device
    let maximumTemperature := getMaximumTemperatureInKelvinForDevice device
    setTemperatureInKelvin device
      (if temperaturePercentage = 0 then (minimumTemperature : ℚ)
       else percentageWithinRange temperaturePercentage minimumTemperature
         maximumTemperature)

def setBrightnessInLumen (device : Device) (brightnessInLumen : ℚ) :
    Except String (List ℚ) :=
  if ¬ isJsInteger brightnessInLumen then
    Except.error "Provided brightness must be an integer"
  else
    let minimumBrightness := getMinimumBrightnessInLumenForDevice device
    let maximumBrightness := getMaximumBrightnessInLumenForDevice device
    if brightnessInLumen < (minimumBrightness : ℚ) ∨
        brightnessInLumen > (maximumBrightness : ℚ) then
      Except.error ("Provided brightness must be between " ++
        toString minimumBrightness ++ " and " ++ toString maximumBrightness ++
        " for this device")
    else
      Except.ok (padRight [0x11, 0xff, 0x04, 0x4c, 0x00, brightnessInLumen] 20 0x00)

def setBrightnessPercentage (device : Device) (brightnessPercentage : ℚ) :
    Except String (List ℚ) :=
  if brightnessPercentage < 0 ∨ brightnessPercentage > 100 then
    Except.error "Percentage must be between 0 and 100"
  else
    let minimumBrightness := getMinimumBrightnessInLumenForDevice device
    let maximumBrightness := getMaximumBrightnessInLumenForDevice device
    setBrightnessInLumen device
      (if brightnessPercentage = 0 then (minimumBrightness : ℚ)
       else percentageWithinRange brightnessPercentage minimumBrightness
         maximumBrightness)

/-- True exactly on `Except.ok`: the call performed its write. -/
def isOkResult (r : Except String (List ℚ)) : Bool :=
  match r with
  | Except.ok _ => true
  | Except.error _ => false

/-- The report a setter call wrote: empty when the call threw. -/
def reportWritten (r : Except String (List ℚ)) : List ℚ :=
  match r with
  | Except.ok report => report
  | Except.error _ => []

/-! Unfolding lemmas: the setters with their local `let` aliases zeta-reduced. -/

lemma setTemperatureInKelvin_def (device : Device) (temperatureInKelvin : ℚ) :
    setTemperatureInKelvin device temperatureInKelvin =
      if ¬ isJsInteger temperatureInKelvin then
        Except.error "Provided temperature must be an integer"
      else if temperatureInKelvin < (getMinimumTemperatureInKelvinForDevice device : ℚ) ∨
          temperatureInKelvin > (getMaximumTemperatureInKelvinForDevice device : ℚ) then
        Except.error ("Provided temperature must be between " ++
          toString (getMinimumTemperatureInKelvinForDevice device) ++ " and " ++
          toString (getMaximumTemperatureInKelvinForDevice device) ++ " for this device")
      else
        Except.ok (padRight ([0x11, 0xff, 0x04, 0x9c] ++
          integerToBytes temperatureInKelvin) 20 0x00) := rfl

lemma setBrightnessInLumen_def (device : Device) (brightnessInLumen : ℚ) :
    setBrightnessInLumen device brightnessInLumen =
      if ¬ isJsInteger brightnessInLumen then
        Except.error "Provided brightness must be an integer"
      else if brightnessInLumen < (getMinimumBrightnessInLumenForDevice device : ℚ) ∨
          brightnessInLumen > (getMaximumBrightnessInLumenForDevice device : ℚ) then
        Except.error ("Provided brightness must be between " ++
          toString (getMinimumBrightnessInLumenForDevice device) ++ " and " ++
          toString (getMaximumBrightnessInLumenForDevice device) ++ " for this device")
      else
        Except.ok (padRight [0x11, 0xff, 0x04, 0x4c, 0x00, brightnessInLumen] 20 0x00) := rfl

lemma setTemperaturePercentage_def (device : Device) (temperaturePercentage : ℚ) :
    setTemperaturePercentage device temperaturePercentage =
      if temperaturePercentage < 0 ∨ temperaturePercentage > 100 then
        Except.error "Percentage must be between 0 and 100"
      else
        setTemperatureInKelvin device
          (if temperaturePercentage = 0 then
            (getMinimumTemperatureInKelvinForDevice device : ℚ)
           else percentageWithinRange temperaturePercentage
             (getMinimumTemperatureInKelvinForDevice device)
             (getMaximumTemperatureInKelvinForDevice device)) := rfl

lemma setBrightnessPercentage_def (device : Device) (brightnessPercentage : ℚ) :
    setBrightnessPercentage device brightnessPercentage =
      if brightnessPercentage < 0 ∨ brightnessPercentage > 100 then
        Except.error "Percentage must be between 0 and 100"
      else
        setBrightnessInLumen device
          (if brightnessPercentage = 0 then
            (getMinimumBrightnessInLumenForDevice device : ℚ)
           else percentageWithinRange brightnessPercentage
             (getMinimumBrightnessInLumenForDevice device)
             (getMaximumBrightnessInLumenForDevice device)) := rfl

/-! Small facts about the numeric model. -/

lemma rat_floor_eq_floor (q : ℚ) : q.floor = ⌊q⌋ := by
  rw [Rat.floor_def, Rat.floor_def']

lemma isJsInteger_intCast (z : ℤ) : isJsInteger (z : ℚ) := Rat.den_intCast z

lemma isJsInteger_natCast (n : ℕ) : isJsInteger (n : ℚ) := Rat.den_natCast n

lemma jsRound_nonneg (x : ℚ) (hx : 0 ≤ x) : 0 ≤ jsRound x := by
  unfold jsRound
  rw [rat_floor_eq_floor]
  exact Int.floor_nonneg.mpr (by linarith)

lemma jsRound_le_int (x : ℚ) (z : ℤ) (h : x ≤ (z : ℚ)) : jsRound x ≤ z := by
  unfold jsRound
  rw [rat_floor_eq_floor]
  have h1 : ⌊x + 1 / 2⌋ ≤ ⌊(z : ℚ) + 1 / 2⌋ := Int.floor_le_floor (by linarith)
  have h2 : ⌊(z : ℚ) + 1 / 2⌋ = z := by
    rw [Int.floor_int_add]
    norm_num
  omega

lemma jsRound_intCast (z : ℤ) : jsRound (z : ℚ) = z := by
  unfold jsRound
  rw [rat_floor_eq_floor, Int.floor_int_add]
  norm_num

lemma temperature_min_le_max (device : Device) :
    getMinimumTemperatureInKelvinForDevice device ≤
      getMaximumTemperatureInKelvinForDevice device := by
  rcases device with ⟨t, h⟩
  cases t <;>
    norm_num [getMinimumTemperatureInKelvinForDevice,
      getMaximumTemperatureInKelvinForDevice,
      MINIMUM_TEMPERATURE_IN_KELVIN_BY_DEVICE_TYPE,
      MAXIMUM_TEMPERATURE_IN_KELVIN_BY_DEVICE_TYPE]

lemma brightness_min_le_max (device : Device) :
    getMinimumBrightnessInLumenForDevice device ≤
      getMaximumBrightnessInLumenForDevice device := by
  rcases device with ⟨t, h⟩
  cases t <;>
    norm_num [getMinimumBrightnessInLumenForDevice,
      getMaximumBrightnessInLumenForDevice,
      MINIMUM_BRIGHTNESS_IN_LUMEN_BY_DEVICE_TYPE,
      MAXIMUM_BRIGHTNESS_IN_LUMEN_BY_DEVICE_TYPE]

/-- For a percentage in `[0, 100]` and integer endpoints `a ≤ b`, the
interpolated value is an integer lying within `[a, b]`. -/
lemma percentageWithinRange_mem (p : ℚ) (a b : ℕ) (hab : a ≤ b)
    (h0 : 0 ≤ p) (h1 : p ≤ 100) :
    isJsInteger (percentageWithinRange p a b) ∧
      (a : ℚ) ≤ percentageWithinRange p a b ∧
      percentageWithinRange p a b ≤ (b : ℚ) := by
  have hD0 : (0 : ℚ) ≤ (b : ℚ) - (a : ℚ) := by
    have : (a : ℚ) ≤ (b : ℚ) := by exact_mod_cast hab
    linarith
  have hx0 : 0 ≤ p / 100 * ((b : ℚ) - (a : ℚ)) :=
    mul_nonneg (div_nonneg h0 (by norm_num)) hD0
  have hx1 : p / 100 * ((b : ℚ) - (a : ℚ)) ≤ (b : ℚ) - (a : ℚ) := by
    have hle : p / 100 ≤ 1 := (div_le_one (by norm_num)).mpr h1
    calc p / 100 * ((b : ℚ) - (a : ℚ)) ≤ 1 * ((b : ℚ) - (a : ℚ)) :=
          mul_le_mul_of_nonneg_right hle hD0
      _ = (b : ℚ) - (a : ℚ) := one_mul _
  have hcast : (b : ℚ) - (a : ℚ) = (((b : ℤ) - (a : ℤ) : ℤ) : ℚ) := by push_cast; ring
  have hz0 : 0 ≤ jsRound (p / 100 * ((b : ℚ) - (a : ℚ))) := jsRound_nonneg _ hx0
  have hz1 : jsRound (p / 100 * ((b : ℚ) - (a : ℚ))) ≤ (b : ℤ) - (a : ℤ) :=
    jsRound_le_int _ _ (by rw [← hcast]; exact hx1)
  refine ⟨?_, ?_, ?_⟩
  · have heq : percentageWithinRange p a b =
        (((a : ℤ) + jsRound (p / 100 * ((b : ℚ) - (a : ℚ))) : ℤ) : ℚ) := by
      unfold percentageWithinRange
      push_cast
      ring
    rw [heq]
    exact isJsInteger_intCast _
  · unfold percentageWithinRange
    have : (0 : ℚ) ≤ (jsRound (p / 100 * ((b : ℚ) - (a : ℚ))) : ℚ) := by
      exact_mod_cast hz0
    linarith
  · unfold percentageWithinRange
    have : ((jsRound (p / 100 * ((b : ℚ) - (a : ℚ))) : ℤ) : ℚ) ≤
        ((b : ℤ) - (a : ℤ) : ℤ) := by exact_mod_cast hz1
    push_cast at this
    linarith

/-- For percentage `100` the interpolated value is exactly the upper bound. -/
lemma percentageWithinRange_hundred (a b : ℕ) :
    percentageWithinRange 100 a b = (b : ℚ) := by
  unfold percentageWithinRange
  have hcast : (100 : ℚ) / 100 * ((b : ℚ) - (a : ℚ)) = (((b : ℤ) - (a : ℤ) : ℤ) : ℚ) := by
    push_cast
    ring
  rw [hcast, jsRound_intCast]
  push_cast
  ring

/-- An integer temperature succeeds exactly when it lies within the
device's inclusive bounds. -/
lemma setTemperatureInKelvin_isOk_iff (device : Device) (v : ℚ)
    (hv : isJsInteger v) :
    isOkResult (setTemperatureInKelvin device v) = true ↔
      ((getMinimumTemperatureInKelvinForDevice device : ℚ) ≤ v ∧
        v ≤ (getMaximumTemperatureInKelvinForDevice device : ℚ)) := by
  rw [setTemperatureInKelvin_def, if_neg (not_not_intro hv)]
  by_cases h : v < (getMinimumTemperatureInKelvinForDevice device : ℚ) ∨
      v > (getMaximumTemperatureInKelvinForDevice device : ℚ)
  · rw [if_pos h]
    simp only [isOkResult]
    constructor
    · intro hfalse
      exact absurd hfalse (by simp)
    · rintro ⟨h1, h2⟩
      rcases h with h | h <;> linarith
  · rw [if_neg h]
    push_neg at h
    simp only [isOkResult]
    exact ⟨fun _ => h, fun _ => trivial⟩

/-- An integer brightness succeeds exactly when it lies within the
device's inclusive bounds. -/
lemma setBrightnessInLumen_isOk_iff (device : Device) (v : ℚ)
    (hv : isJsInteger v) :
    isOkResult (setBrightnessInLumen device v) = true ↔
      ((getMinimumBrightnessInLumenForDevice device : ℚ) ≤ v ∧
        v ≤ (getMaximumBrightnessInLumenForDevice device : ℚ)) := by
  rw [setBrightnessInLumen_def, if_neg (not_not_intro hv)]
  by_cases h : v < (getMinimumBrightnessInLumenForDevice device : ℚ) ∨
      v > (getMaximumBrightnessInLumenForDevice device : ℚ)
  · rw [if_pos h]
    simp only [isOkResult]
    constructor
    · intro hfalse
      exact absurd hfalse (by simp)
    · rintro ⟨h1, h2⟩
      rcases h with h | h <;> linarith
  · rw [if_neg h]
    push_neg at h
    simp only [isOkResult]
    exact ⟨fun _ => h, fun _ => trivial⟩

/-- Percentage `0` delegates the raw minimum temperature. -/
lemma setTemperaturePercentage_zero (device : Device) :
    setTemperaturePercentage device 0 =
      setTemperatureInKelvin device (getMinimumTemperatureInKelvinForDevice device) := by
  rw [setTemperaturePercentage_def, if_neg (by norm_num), if_pos rfl]

/-- A positive in-range percentage delegates the interpolated temperature. -/
lemma setTemperaturePercentage_pos (device : Device) (p : ℚ)
    (h0 : 0 < p) (h1 : p ≤ 100) :
    setTemperaturePercentage device p =
      setTemperatureInKelvin device
        (percentageWithinRange p (getMinimumTemperatureInKelvinForDevice device)
          (getMaximumTemperatureInKelvinForDevice device)) := by
  rw [setTemperaturePercentage_def, if_neg (by push_neg; exact ⟨by linarith, by linarith⟩),
    if_neg h0.ne']

/-- Percentage `0` delegates the raw minimum brightness. -/
lemma setBrightnessPercentage_zero (device : Device) :
    setBrightnessPercentage device 0 =
      setBrightnessInLumen device (getMinimumBrightnessInLumenForDevice device) := by
  rw [setBrightnessPercentage_def, if_neg (by norm_num), if_pos rfl]

/-- A positive in-range percentage delegates the interpolated brightness. -/
lemma setBrightnessPercentage_pos (device : Device) (p : ℚ)
    (h0 : 0 < p) (h1 : p ≤ 100) :
    setBrightnessPercentage device p =
      setBrightnessInLumen device
        (percentageWithinRange p (getMinimumBrightnessInLumenForDevice device)
          (getMaximumBrightnessInLumenForDevice device)) := by
  rw [setBrightnessPercentage_def, if_neg (by push_neg; exact ⟨by linarith, by linarith⟩),
    if_neg h0.ne']

/-- Any percentage in `[0, 100]` makes the temperature setter write a report. -/
lemma setTemperaturePercentage_isOk (device : Device) (p : ℚ)
    (h0 : 0 ≤ p) (h1 : p ≤ 100) :
    isOkResult (setTemperaturePercentage device p) = true := by
  rcases eq_or_lt_of_le h0 with h | h
  · rw [← h, setTemperaturePercentage_zero]
    refine (setTemperatureInKelvin_isOk_iff device _ (isJsInteger_natCast _)).mpr ⟨le_refl _, ?_⟩
    exact_mod_cast temperature_min_le_max device
  · rw [setTemperaturePercentage_pos device p h h1]
    obtain ⟨hint, hlb, hub⟩ :=
      percentageWithinRange_mem p (getMinimumTemperatureInKelvinForDevice device)
        (getMaximumTemperatureInKelvinForDevice device)
        (temperature_min_le_max device) h0 h1
    exact (setTemperatureInKelvin_isOk_iff device _ hint).mpr ⟨hlb, hub⟩

/-- Any percentage in `[0, 100]` makes the brightness setter write a report. -/
lemma setBrightnessPercentage_isOk (device : Device) (p : ℚ)
    (h0 : 0 ≤ p) (h1 : p ≤ 100) :
    isOkResult (setBrightnessPercentage device p) = true := by
  rcases eq_or_lt_of_le h0 with h | h
  · rw [← h, setBrightnessPercentage_zero]
    refine (setBrightnessInLumen_isOk_iff device _ (isJsInteger_natCast _)).mpr ⟨le_refl _, ?_⟩
    exact_mod_cast brightness_min_le_max device
  · rw [setBrightnessPercentage_pos device p h h1]
    obtain ⟨hint, hlb, hub⟩ :=
      percentageWithinRange_mem p (getMinimumBrightnessInLumenForDevice device)
        (getMaximumBrightnessInLumenForDevice device)
        (brightness_min_le_max device) h0 h1
    exact (setBrightnessInLumen_isOk_iff device _ hint).mpr ⟨hlb, hub⟩

/-- A non-integer temperature throws the integer-precondition error,
whatever its magnitude. -/
lemma setTemperatureInKelvin_not_int (device : Device) (v : ℚ)
    (hv : ¬ isJsInteger v) :
    setTemperatureInKelvin device v =
      Except.error "Provided temperature must be an integer" := by
  rw [setTemperatureInKelvin_def, if_pos hv]

/-- A non-integer brightness throws the integer-precondition error,
whatever its magnitude. -/
lemma setBrightnessInLumen_not_int (device : Device) (v : ℚ)
    (hv : ¬ isJsInteger v) :
    setBrightnessInLumen device v =
      Except.error "Provided brightness must be an integer" := by
  rw [setBrightnessInLumen_def, if_pos hv]

/-- An integer temperature outside the device's bounds throws the range
error naming both bounds. -/
lemma setTemperatureInKelvin_out_of_range (device : Device) (v : ℚ)
    (hv : isJsInteger v)
    (h : v < (getMinimumTemperatureInKelvinForDevice device : ℚ) ∨
      v > (getMaximumTemperatureInKelvinForDevice device : ℚ)) :
    setTemperatureInKelvin device v =
      Except.error ("Provided temperature must be between " ++
        toString (getMinimumTemperatureInKelvinForDevice device) ++ " and " ++
        toString (getMaximumTemperatureInKelvinForDevice device) ++
        " for this device") := by
  rw [setTemperatureInKelvin_def, if_neg (not_not_intro hv), if_pos h]

/-- An integer brightness outside the device's bounds throws the range
error naming both bounds. -/
lemma setBrightnessInLumen_out_of_range (device : Device) (v : ℚ)
    (hv : isJsInteger v)
    (h : v < (getMinimumBrightnessInLumenForDevice device : ℚ) ∨
      v > (getMaximumBrightnessInLumenForDevice device : ℚ)) :
    setBrightnessInLumen device v =
      Except.error ("Provided brightness must be between " ++
        toString (getMinimumBrightnessInLumenForDevice device) ++ " and " ++
        toString (getMaximumBrightnessInLumenForDevice device) ++
        " for this device") := by
  rw [setBrightnessInLumen_def, if_neg (not_not_intro hv), if_pos h]

/-! The claims. -/

/-- C2: for every device, `setTemperaturePercentage device 0` returns a
result byte-identical to `setTemperatureInKelvin` at the device's minimum
temperature (percentage `0` bypasses the interpolation), and the call
succeeds, writing that report. -/
theorem claim_C2 (device : Device) :
    setTemperaturePercentage device 0 =
      setTemperatureInKelvin device (getMinimumTemperatureInKelvinForDevice device) ∧
    isOkResult (setTemperaturePercentage device 0) = true :=
  ⟨setTemperaturePercentage_zero device,
    setTemperaturePercentage_isOk device 0 le_rfl (by norm_num)⟩

/-- C5: for every device and every non-integer value, both absolute setters
throw the invalid-argument (not-an-integer) error; the statement holds with
no range assumption, so the integrality check precedes the range check. -/
theorem claim_C5 (device : Device) (v : ℚ) (hv : ¬ isJsInteger v) :
    setTemperatureInKelvin device v =
      Except.error "Provided temperature must be an integer" ∧
    setBrightnessInLumen device v =
      Except.error "Provided brightness must be an integer" :=
  ⟨setTemperatureInKelvin_not_int device v hv,
    setBrightnessInLumen_not_int device v hv⟩

theorem claim_C5_witness :
    (¬ isJsInteger ((6001 : ℚ) / 2)) ∧
    (setTemperatureInKelvin ⟨DeviceType.litra_glow, "/dev/hidraw0"⟩ ((6001 : ℚ) / 2) =
        Except.error "Provided temperature must be an integer" ∧
      setBrightnessInLumen ⟨DeviceType.litra_glow, "/dev/hidraw0"⟩ ((6001 : ℚ) / 2) =
        Except.error "Provided brightness must be an integer") :=
  ⟨by with_unfolding_all decide,
    claim_C5 ⟨DeviceType.litra_glow, "/dev/hidraw0"⟩ ((6001 : ℚ) / 2)
      (by with_unfolding_all decide)⟩

/-- C8: for every device, `turnOn` writes exactly
`[0x11, 0xff, 0x04, 0x1c, 0x01]` followed by fifteen zero bytes (20 bytes
total), and `turnOff` writes the identical report except byte 4 is `0x00`. -/
theorem claim_C8 (device : Device) :
    turnOn device = [0x11, 0xff, 0x04, 0x1c, 0x01] ++ List.replicate 15 0 ∧
    (turnOn device).length = 20 ∧
    turnOff device = [0x11, 0xff, 0x04, 0x1c, 0x00] ++ List.replicate 15 0 ∧
    (turnOff device).length = 20 ∧
    turnOff device = (turnOn device).set 4 0x00 :=
  ⟨rfl, rfl, rfl, rfl, rfl⟩

/-- C4: for every device and every integer value, `setBrightnessInLumen` and
`setTemperatureInKelvin` fail with the out-of-range error exactly when the
value lies strictly outside the inclusive per-device-type bounds, with a
message naming both bounds; in particular, for the GlowVariant brightness
19 and 251 are rejected while 20 and 250 succeed. -/
theorem claim_C4 (device : Device) (v : ℚ) (hv : isJsInteger v) :
    (isOkResult (setBrightnessInLumen device v) = true ↔
      ((getMinimumBrightnessInLumenForDevice device : ℚ) ≤ v ∧
        v ≤ (getMaximumBrightnessInLumenForDevice device : ℚ))) ∧
    ((v < (getMinimumBrightnessInLumenForDevice device : ℚ) ∨
        v > (getMaximumBrightnessInLumenForDevice device : ℚ)) →
      setBrightnessInLumen device v =
        Except.error ("Provided brightness must be between " ++
          toString (getMinimumBrightnessInLumenForDevice device) ++ " and " ++
          toString (getMaximumBrightnessInLumenForDevice device) ++
          " for this device")) ∧
    (isOkResult (setTemperatureInKelvin device v) = true ↔
      ((getMinimumTemperatureInKelvinForDevice device : ℚ) ≤ v ∧
        v ≤ (getMaximumTemperatureInKelvinForDevice device : ℚ))) ∧
    ((v < (getMinimumTemperatureInKelvinForDevice device : ℚ) ∨
        v > (getMaximumTemperatureInKelvinForDevice device : ℚ)) →
      setTemperatureInKelvin device v =
        Except.error ("Provided temperature must be between " ++
          toString (getMinimumTemperatureInKelvinForDevice device) ++ " and " ++
          toString (getMaximumTemperatureInKelvinForDevice device) ++
          " for this device")) ∧
    isOkResult (setBrightnessInLumen ⟨DeviceType.litra_glow, device.hid⟩ 19) = false ∧
    isOkResult (setBrightnessInLumen ⟨DeviceType.litra_glow, device.hid⟩ 20) = true ∧
    isOkResult (setBrightnessInLumen ⟨DeviceType.litra_glow, device.hid⟩ 251) = false ∧
    isOkResult (setBrightnessInLumen ⟨DeviceType.litra_glow, device.hid⟩ 250) = true := by
  refine ⟨setBrightnessInLumen_isOk_iff device v hv,
    fun h => setBrightnessInLumen_out_of_range device v hv h,
    setTemperatureInKelvin_isOk_iff device v hv,
    fun h => setTemperatureInKelvin_out_of_range device v hv h, ?_, ?_, ?_, ?_⟩
  · rw [setBrightnessInLumen_out_of_range ⟨DeviceType.litra_glow, device.hid⟩ 19
      (by simp [isJsInteger])
      (Or.inl (by norm_num [getMinimumBrightnessInLumenForDevice,
        MINIMUM_BRIGHTNESS_IN_LUMEN_BY_DEVICE_TYPE]))]
    rfl
  · exact (setBrightnessInLumen_isOk_iff ⟨DeviceType.litra_glow, device.hid⟩ 20
      (by simp [isJsInteger])).mpr
      ⟨by norm_num [getMinimumBrightnessInLumenForDevice,
        MINIMUM_BRIGHTNESS_IN_LUMEN_BY_DEVICE_TYPE],
       by norm_num [getMaximumBrightnessInLumenForDevice,
        MAXIMUM_BRIGHTNESS_IN_LUMEN_BY_DEVICE_TYPE]⟩
  · rw [setBrightnessInLumen_out_of_range ⟨DeviceType.litra_glow, device.hid⟩ 251
      (by simp [isJsInteger])
      (Or.inr (by norm_num [getMaximumBrightnessInLumenForDevice,
        MAXIMUM_BRIGHTNESS_IN_LUMEN_BY_DEVICE_TYPE]))]
    rfl
  · exact (setBrightnessInLumen_isOk_iff ⟨DeviceType.litra_glow, device.hid⟩ 250
      (by simp [isJsInteger])).mpr
      ⟨by norm_num [getMinimumBrightnessInLumenForDevice,
        MINIMUM_BRIGHTNESS_IN_LUMEN_BY_DEVICE_TYPE],
       by norm_num [getMaximumBrightnessInLumenForDevice,
        MAXIMUM_BRIGHTNESS_IN_LUMEN_BY_DEVICE_TYPE]⟩

theorem claim_C4_witness :
    isJsInteger (251 : ℚ) ∧
    ((isOkResult (setBrightnessInLumen ⟨DeviceType.litra_glow, "w"⟩ 251) = true ↔
      ((getMinimumBrightnessInLumenForDevice ⟨DeviceType.litra_glow, "w"⟩ : ℚ) ≤ 251 ∧
        (251 : ℚ) ≤ (getMaximumBrightnessInLumenForDevice ⟨DeviceType.litra_glow, "w"⟩ : ℚ))) ∧
    (((251 : ℚ) < (getMinimumBrightnessInLumenForDevice ⟨DeviceType.litra_glow, "w"⟩ : ℚ) ∨
        (251 : ℚ) > (getMaximumBrightnessInLumenForDevice ⟨DeviceType.litra_glow, "w"⟩ : ℚ)) →
      setBrightnessInLumen ⟨DeviceType.litra_glow, "w"⟩ 251 =
        Except.error ("Provided brightness must be between " ++
          toString (getMinimumBrightnessInLumenForDevice ⟨DeviceType.litra_glow, "w"⟩) ++
          " and " ++
          toString (getMaximumBrightnessInLumenForDevice ⟨DeviceType.litra_glow, "w"⟩) ++
          " for this device")) ∧
    (isOkResult (setTemperatureInKelvin ⟨DeviceType.litra_glow, "w"⟩ 251) = true ↔
      ((getMinimumTemperatureInKelvinForDevice ⟨DeviceType.litra_glow, "w"⟩ : ℚ) ≤ 251 ∧
        (251 : ℚ) ≤ (getMaximumTemperatureInKelvinForDevice ⟨DeviceType.litra_glow, "w"⟩ : ℚ))) ∧
    (((251 : ℚ) < (getMinimumTemperatureInKelvinForDevice ⟨DeviceType.litra_glow, "w"⟩ : ℚ) ∨
        (251 : ℚ) > (getMaximumTemperatureInKelvinForDevice ⟨DeviceType.litra_glow, "w"⟩ : ℚ)) →
      setTemperatureInKelvin ⟨DeviceType.litra_glow, "w"⟩ 251 =
        Except.error ("Provided temperature must be between " ++
          toString (getMinimumTemperatureInKelvinForDevice ⟨DeviceType.litra_glow, "w"⟩) ++
          " and " ++
          toString (getMaximumTemperatureInKelvinForDevice ⟨DeviceType.litra_glow, "w"⟩) ++
          " for this device")) ∧
    isOkResult (setBrightnessInLumen ⟨DeviceType.litra_glow, "w"⟩ 19) = false ∧
    isOkResult (setBrightnessInLumen ⟨DeviceType.litra_glow, "w"⟩ 20) = true ∧
    isOkResult (setBrightnessInLumen ⟨DeviceType.litra_glow, "w"⟩ 251) = false ∧
    isOkResult (setBrightnessInLumen ⟨DeviceType.litra_glow, "w"⟩ 250) = true) :=
  ⟨by with_unfolding_all decide,
    claim_C4 ⟨DeviceType.litra_glow, "w"⟩ 251 (by with_unfolding_all decide)⟩

/-- C6: for every device and every percentage, the percentage setters throw
the range error exactly when the percentage is strictly below 0 or strictly
above 100; in particular both `-1` and `101` are rejected. -/
theorem claim_C6 (device : Device) (p : ℚ) :
    (setTemperaturePercentage device p =
        Except.error "Percentage must be between 0 and 100" ↔ (p < 0 ∨ p > 100)) ∧
    (setBrightnessPercentage device p =
        Except.error "Percentage must be between 0 and 100" ↔ (p < 0 ∨ p > 100)) ∧
    setTemperaturePercentage device (-1) =
      Except.error "Percentage must be between 0 and 100" ∧
    setTemperaturePercentage device 101 =
      Except.error "Percentage must be between 0 and 100" ∧
    setBrightnessPercentage device (-1) =
      Except.error "Percentage must be between 0 and 100" ∧
    setBrightnessPercentage device 101 =
      Except.error "Percentage must be between 0 and 100" := by
  refine ⟨⟨?_, ?_⟩, ⟨?_, ?_⟩, ?_, ?_, ?_, ?_⟩
  · intro heq
    by_contra hc
    push_neg at hc
    have hok := setTemperaturePercentage_isOk device p hc.1 hc.2
    rw [heq] at hok
    simp [isOkResult] at hok
  · intro h
    rw [setTemperaturePercentage_def, if_pos h]
  · intro heq
    by_contra hc
    push_neg at hc
    have hok := setBrightnessPercentage_isOk device p hc.1 hc.2
    rw [heq] at hok
    simp [isOkResult] at hok
  · intro h
    rw [setBrightnessPercentage_def, if_pos h]
  · rw [setTemperaturePercentage_def, if_pos (by norm_num)]
  · rw [setTemperaturePercentage_def, if_pos (by norm_num)]
  · rw [setBrightnessPercentage_def, if_pos (by norm_num)]
  · rw [setBrightnessPercentage_def, if_pos (by norm_num)]

/-- C7: whenever a validation precondition of any of the four setters is
violated, the call returns an error and writes nothing: the report trace of
the call is empty. -/
theorem claim_C7 (device : Device) (v p : ℚ) :
    ((¬ isJsInteger v ∨ v < (getMinimumTemperatureInKelvinForDevice device : ℚ) ∨
        v > (getMaximumTemperatureInKelvinForDevice device : ℚ)) →
      isOkResult (setTemperatureInKelvin device v) = false ∧
      reportWritten (setTemperatureInKelvin device v) = []) ∧
    ((¬ isJsInteger v ∨ v < (getMinimumBrightnessInLumenForDevice device : ℚ) ∨
        v > (getMaximumBrightnessInLumenForDevice device : ℚ)) →
      isOkResult (setBrightnessInLumen device v) = false ∧
      reportWritten (setBrightnessInLumen device v) = []) ∧
    ((p < 0 ∨ p > 100) →
      isOkResult (setTemperaturePercentage device p) = false ∧
      reportWritten (setTemperaturePercentage device p) = [] ∧
      isOkResult (setBrightnessPercentage device p) = false ∧
      reportWritten (setBrightnessPercentage device p) = []) := by
  refine ⟨?_, ?_, ?_⟩
  · intro h
    by_cases hi : isJsInteger v
    · rcases h with h | h | h
      · exact absurd hi h
      · rw [setTemperatureInKelvin_out_of_range device v hi (Or.inl h)]
        exact ⟨rfl, rfl⟩
      · rw [setTemperatureInKelvin_out_of_range device v hi (Or.inr h)]
        exact ⟨rfl, rfl⟩
    · rw [setTemperatureInKelvin_not_int device v hi]
      exact ⟨rfl, rfl⟩
  · intro h
    by_cases hi : isJsInteger v
    · rcases h with h | h | h
      · exact absurd hi h
      · rw [setBrightnessInLumen_out_of_range device v hi (Or.inl h)]
        exact ⟨rfl, rfl⟩
      · rw [setBrightnessInLumen_out_of_range device v hi (Or.inr h)]
        exact ⟨rfl, rfl⟩
    · rw [setBrightnessInLumen_not_int device v hi]
      exact ⟨rfl, rfl⟩
  · intro h
    have ht : setTemperaturePercentage device p =
        Except.error "Percentage must be between 0 and 100" := by
      rw [setTemperaturePercentage_def, if_pos h]
    have hb : setBrightnessPercentage device p =
        Except.error "Percentage must be between 0 and 100" := by
      rw [setBrightnessPercentage_def, if_pos h]
    rw [ht, hb]
    exact ⟨rfl, rfl, rfl, rfl⟩

theorem claim_C7_witness :
    (¬ isJsInteger ((1 : ℚ) / 2)) ∧
    (isOkResult (setTemperatureInKelvin ⟨DeviceType.litra_beam, "w"⟩ (1 / 2)) = false ∧
      reportWritten (setTemperatureInKelvin ⟨DeviceType.litra_beam, "w"⟩ (1 / 2)) = []) ∧
    (isOkResult (setBrightnessInLumen ⟨DeviceType.litra_beam, "w"⟩ (1 / 2)) = false ∧
      reportWritten (setBrightnessInLumen ⟨DeviceType.litra_beam, "w"⟩ (1 / 2)) = []) ∧
    ((101 : ℚ) > 100) ∧
    (isOkResult (setTemperaturePercentage ⟨DeviceType.litra_beam, "w"⟩ 101) = false ∧
      reportWritten (setTemperaturePercentage ⟨DeviceType.litra_beam, "w"⟩ 101) = [] ∧
      isOkResult (setBrightnessPercentage ⟨DeviceType.litra_beam, "w"⟩ 101) = false ∧
      reportWritten (setBrightnessPercentage ⟨DeviceType.litra_beam, "w"⟩ 101) = []) :=
  ⟨by with_unfolding_all decide,
    (claim_C7 ⟨DeviceType.litra_beam, "w"⟩ (1 / 2) 101).1
      (Or.inl (by with_unfolding_all decide)),
    (claim_C7 ⟨DeviceType.litra_beam, "w"⟩ (1 / 2) 101).2.1
      (Or.inl (by with_unfolding_all decide)),
    by norm_num,
    (claim_C7 ⟨DeviceType.litra_beam, "w"⟩ (1 / 2) 101).2.2
      (Or.inr (by norm_num))⟩

/-- C10: the percentage validation checks only the range, not integrality:
every non-integer percentage strictly between 0 and 100 is accepted by both
percentage setters, which interpolate it to an integral value and never
throw the not-an-integer error for the percentage itself. -/
theorem claim_C10 (device : Device) (p : ℚ) (_hp : ¬ isJsInteger p)
    (h0 : 0 < p) (h1 : p < 100) :
    isOkResult (setTemperaturePercentage device p) = true ∧
    isOkResult (setBrightnessPercentage device p) = true ∧
    setTemperaturePercentage device p =
      setTemperatureInKelvin device
        (percentageWithinRange p (getMinimumTemperatureInKelvinForDevice device)
          (getMaximumTemperatureInKelvinForDevice device)) ∧
    setBrightnessPercentage device p =
      setBrightnessInLumen device
        (percentageWithinRange p (getMinimumBrightnessInLumenForDevice device)
          (getMaximumBrightnessInLumenForDevice device)) ∧
    isJsInteger (percentageWithinRange p (getMinimumTemperatureInKelvinForDevice device)
      (getMaximumTemperatureInKelvinForDevice device)) ∧
    isJsInteger (percentageWithinRange p (getMinimumBrightnessInLumenForDevice device)
      (getMaximumBrightnessInLumenForDevice device)) := by
  have h0' : (0 : ℚ) ≤ p := le_of_lt h0
  have h1' : p ≤ 100 := le_of_lt h1
  exact ⟨setTemperaturePercentage_isOk device p h0' h1',
    setBrightnessPercentage_isOk device p h0' h1',
    setTemperaturePercentage_pos device p h0 h1',
    setBrightnessPercentage_pos device p h0 h1',
    (percentageWithinRange_mem p _ _ (temperature_min_le_max device) h0' h1').1,
    (percentageWithinRange_mem p _ _ (brightness_min_le_max device) h0' h1').1⟩

theorem claim_C10_witness :
    (¬ isJsInteger ((101 : ℚ) / 2)) ∧ (0 : ℚ) < 101 / 2 ∧ (101 : ℚ) / 2 < 100 ∧
    (isOkResult (setTemperaturePercentage ⟨DeviceType.litra_glow, "w"⟩ (101 / 2)) = true ∧
      isOkResult (setBrightnessPercentage ⟨DeviceType.litra_glow, "w"⟩ (101 / 2)) = true ∧
      setTemperaturePercentage ⟨DeviceType.litra_glow, "w"⟩ (101 / 2) =
        setTemperatureInKelvin ⟨DeviceType.litra_glow, "w"⟩
          (percentageWithinRange (101 / 2)
            (getMinimumTemperatureInKelvinForDevice ⟨DeviceType.litra_glow, "w"⟩)
            (getMaximumTemperatureInKelvinForDevice ⟨DeviceType.litra_glow, "w"⟩)) ∧
      setBrightnessPercentage ⟨DeviceType.litra_glow, "w"⟩ (101 / 2) =
        setBrightnessInLumen ⟨DeviceType.litra_glow, "w"⟩
          (percentageWithinRange (101 / 2)
            (getMinimumBrightnessInLumenForDevice ⟨DeviceType.litra_glow, "w"⟩)
            (getMaximumBrightnessInLumenForDevice ⟨DeviceType.litra_glow, "w"⟩)) ∧
      isJsInteger (percentageWithinRange (101 / 2)
        (getMinimumTemperatureInKelvinForDevice ⟨DeviceType.litra_glow, "w"⟩)
        (getMaximumTemperatureInKelvinForDevice ⟨DeviceType.litra_glow, "w"⟩)) ∧
      isJsInteger (percentageWithinRange (101 / 2)
        (getMinimumBrightnessInLumenForDevice ⟨DeviceType.litra_glow, "w"⟩)
        (getMaximumBrightnessInLumenForDevice ⟨DeviceType.litra_glow, "w"⟩))) :=
  ⟨by with_unfolding_all decide, by norm_num, by norm_num,
    claim_C10 ⟨DeviceType.litra_glow, "w"⟩ (101 / 2)
      (by with_unfolding_all decide) (by norm_num) (by norm_num)⟩

/-- C3: for every device and percentage `0 < p ≤ 100`, the percentage
setters delegate `min + round(p/100 × (max − min))` (ties rounded up) to the
absolute setter; at `p = 100` the delegated temperature is exactly the
device's maximum. -/
theorem claim_C3 (device : Device) (p : ℚ) (h0 : 0 < p) (h1 : p ≤ 100) :
    setTemperaturePercentage device p =
      setTemperatureInKelvin device
        ((getMinimumTemperatureInKelvinForDevice device : ℚ) +
          (jsRound (p / 100 * ((getMaximumTemperatureInKelvinForDevice device : ℚ) -
            (getMinimumTemperatureInKelvinForDevice device : ℚ))) : ℚ)) ∧
    setTemperaturePercentage device 100 =
      setTemperatureInKelvin device (getMaximumTemperatureInKelvinForDevice device) ∧
    isOkResult (setTemperaturePercentage device 100) = true ∧
    setBrightnessPercentage device p =
      setBrightnessInLumen device
        ((getMinimumBrightnessInLumenForDevice device : ℚ) +
          (jsRound (p / 100 * ((getMaximumBrightnessInLumenForDevice device : ℚ) -
            (getMinimumBrightnessInLumenForDevice device : ℚ))) : ℚ)) := by
  refine ⟨?_, ?_, ?_, ?_⟩
  · rw [setTemperaturePercentage_pos device p h0 h1]
    rfl
  · rw [setTemperaturePercentage_pos device 100 (by norm_num) (by norm_num),
      percentageWithinRange_hundred]
  · exact setTemperaturePercentage_isOk device 100 (by norm_num) (by norm_num)
  · rw [setBrightnessPercentage_pos device p h0 h1]
    rfl

theorem claim_C3_witness :
    (0 : ℚ) < 50 ∧ (50 : ℚ) ≤ 100 ∧
    (setTemperaturePercentage ⟨DeviceType.litra_beam, "w"⟩ 50 =
        setTemperatureInKelvin ⟨DeviceType.litra_beam, "w"⟩
          ((getMinimumTemperatureInKelvinForDevice ⟨DeviceType.litra_beam, "w"⟩ : ℚ) +
            (jsRound ((50 : ℚ) / 100 *
              ((getMaximumTemperatureInKelvinForDevice ⟨DeviceType.litra_beam, "w"⟩ : ℚ) -
                (getMinimumTemperatureInKelvinForDevice ⟨DeviceType.litra_beam, "w"⟩ : ℚ))) : ℚ)) ∧
      setTemperaturePercentage ⟨DeviceType.litra_beam, "w"⟩ 100 =
        setTemperatureInKelvin ⟨DeviceType.litra_beam, "w"⟩
          (getMaximumTemperatureInKelvinForDevice ⟨DeviceType.litra_beam, "w"⟩) ∧
      isOkResult (setTemperaturePercentage ⟨DeviceType.litra_beam, "w"⟩ 100) = true ∧
      setBrightnessPercentage ⟨DeviceType.litra_beam, "w"⟩ 50 =
        setBrightnessInLumen ⟨DeviceType.litra_beam, "w"⟩
          ((getMinimumBrightnessInLumenForDevice ⟨DeviceType.litra_beam, "w"⟩ : ℚ) +
            (jsRound ((50 : ℚ) / 100 *
              ((getMaximumBrightnessInLumenForDevice ⟨DeviceType.litra_beam, "w"⟩ : ℚ) -
                (getMinimumBrightnessInLumenForDevice ⟨DeviceType.litra_beam, "w"⟩ : ℚ))) : ℚ))) :=
  ⟨by norm_num, by norm_num,
    claim_C3 ⟨DeviceType.litra_beam, "w"⟩ 50 (by norm_num) (by norm_num)⟩

/-- C1 counterexample: the BeamVariant accepts the in-range brightness 400,
and the written report's element at offset 5 is the raw value 400, which
does not fit in (and so cannot equal) a single byte. -/
theorem claim_C1_counterexample :
    isOkResult (setBrightnessInLumen ⟨DeviceType.litra_beam, "/dev/hidraw0"⟩ 400) = true ∧
    (reportWritten (setBrightnessInLumen
      ⟨DeviceType.litra_beam, "/dev/hidraw0"⟩ 400)).getD 5 0 = 400 ∧
    ¬ ((reportWritten (setBrightnessInLumen
      ⟨DeviceType.litra_beam, "/dev/hidraw0"⟩ 400)).getD 5 0 < 256) := by
  with_unfolding_all decide

/-- C1 (amended): for every device and every integer brightness within the
device's bounds, `setBrightnessInLumen` writes the 20-byte report
`[0x11, 0xff, 0x04, 0x4c]`, then `0x00`, then the raw requested value at
offset 5, then zero padding; the value at offset 5 occupies a single byte
only when it is at most 255, which holds for every GlowVariant value but
not for BeamVariant values 256–400. -/
theorem claim_C1_amended (device : Device) (v : ℚ) (hv : isJsInteger v)
    (h1 : (getMinimumBrightnessInLumenForDevice device : ℚ) ≤ v)
    (h2 : v ≤ (getMaximumBrightnessInLumenForDevice device : ℚ)) :
    setBrightnessInLumen device v =
      Except.ok ([0x11, 0xff, 0x04, 0x4c, 0x00, v] ++ List.replicate 14 0) ∧
    (reportWritten (setBrightnessInLumen device v)).length = 20 ∧
    (device.type = DeviceType.litra_glow → v < 256) := by
  have hok : setBrightnessInLumen device v =
      Except.ok ([0x11, 0xff, 0x04, 0x4c, 0x00, v] ++ List.replicate 14 0) := by
    rw [setBrightnessInLumen_def, if_neg (not_not_intro hv),
      if_neg (by push_neg; exact ⟨h1, h2⟩)]
    rfl
  refine ⟨hok, by rw [hok]; rfl, ?_⟩
  intro hg
  have hmax : (getMaximumBrightnessInLumenForDevice device : ℚ) = 250 := by
    unfold getMaximumBrightnessInLumenForDevice
    rw [hg]
    norm_num [MAXIMUM_BRIGHTNESS_IN_LUMEN_BY_DEVICE_TYPE]
  rw [hmax] at h2
  linarith

theorem claim_C1_amended_witness :
    isJsInteger (100 : ℚ) ∧
    ((getMinimumBrightnessInLumenForDevice ⟨DeviceType.litra_glow, "w"⟩ : ℚ) ≤ 100) ∧
    ((100 : ℚ) ≤ (getMaximumBrightnessInLumenForDevice ⟨DeviceType.litra_glow, "w"⟩ : ℚ)) ∧
    (setBrightnessInLumen ⟨DeviceType.litra_glow, "w"⟩ 100 =
        Except.ok ([0x11, 0xff, 0x04, 0x4c, 0x00, 100] ++ List.replicate 14 0) ∧
      (reportWritten (setBrightnessInLumen ⟨DeviceType.litra_glow, "w"⟩ 100)).length = 20 ∧
      ((⟨DeviceType.litra_glow, "w"⟩ : Device).type = DeviceType.litra_glow →
        (100 : ℚ) < 256)) :=
  ⟨by with_unfolding_all decide, by with_unfolding_all decide, by with_unfolding_all decide,
    claim_C1_amended ⟨DeviceType.litra_glow, "w"⟩ 100 (by with_unfolding_all decide)
      (by with_unfolding_all decide) (by with_unfolding_all decide)⟩

/-- C9: `findDevice` matches exactly the entries with vendor id `0x046d`,
product id `0xc900` or `0xc901` and usage page `0xff43`; it returns the
first match in enumeration order, classified into the GlowVariant for
`0xc900` and the BeamVariant for `0xc901`, and returns the distinct
not-found value (`none`, not an error) when nothing matches. -/
theorem claim_C9 (devices : List HidDeviceInfo) :
    (∀ x : HidDeviceInfo, isMatchingDevice x = true ↔
      (x.vendorId = 0x046d ∧ (x.productId = 0xc900 ∨ x.productId = 0xc901) ∧
        x.usagePage = 0xff43)) ∧
    (devices.find? isMatchingDevice = none → findDevice devices = Except.ok none) ∧
    (∀ d : HidDeviceInfo, devices.find? isMatchingDevice = some d →
      (isMatchingDevice d = true ∧
        ∃ pre post, devices = pre ++ d :: post ∧
          ∀ x ∈ pre, isMatchingDevice x = false) ∧
      (d.productId = 0xc900 →
        findDevice devices = Except.ok (some ⟨DeviceType.litra_glow, d.path⟩)) ∧
      (d.productId = 0xc901 →
        findDevice devices = Except.ok (some ⟨DeviceType.litra_beam, d.path⟩))) := by
  refine ⟨?_, ?_, ?_⟩
  · intro x
    simp [isMatchingDevice, VENDOR_ID, USAGE_PAGE, PRODUCT_IDS]
    tauto
  · intro h
    unfold findDevice
    rw [h]
  · intro d hd
    obtain ⟨hpd, pre, post, hsplit, hpre⟩ := List.find?_eq_some.mp hd
    refine ⟨⟨hpd, pre, post, hsplit, ?_⟩, ?_, ?_⟩
    · intro x hx
      have := hpre x hx
      simpa using this
    · intro hpid
      unfold findDevice
      rw [hd]
      show (getDeviceTypeByProductId d.productId).map _ = _
      rw [hpid]
      norm_num [getDeviceTypeByProductId]
      rfl
    · intro hpid
      unfold findDevice
      rw [hd]
      show (getDeviceTypeByProductId d.productId).map _ = _
      rw [hpid]
      norm_num [getDeviceTypeByProductId]
      rfl

theorem claim_C9_witness :
    (([⟨1, 2, 3, "x"⟩, ⟨0x046d, 0xc901, 0xff43, "b"⟩] : List HidDeviceInfo).find?
        isMatchingDevice = some ⟨0x046d, 0xc901, 0xff43, "b"⟩) ∧
    ((⟨0x046d, 0xc901, 0xff43, "b"⟩ : HidDeviceInfo).productId = 0xc901) ∧
    findDevice [⟨1, 2, 3, "x"⟩, ⟨0x046d, 0xc901, 0xff43, "b"⟩] =
      Except.ok (some ⟨DeviceType.litra_beam, "b"⟩) :=
  ⟨by decide, by decide,
    ((claim_C9 [⟨1, 2, 3, "x"⟩, ⟨0x046d, 0xc901, 0xff43, "b"⟩]).2.2
      ⟨0x046d, 0xc901, 0xff43, "b"⟩ (by decide)).2.2 (by decide)⟩

example : isOkResult (setBrightnessInLumen ⟨DeviceType.litra_glow, "p"⟩ 100) = true := by with_unfolding_all decide
example : isOkResult (setBrightnessInLumen ⟨DeviceType.litra_glow, "p"⟩ 19) = false := by with_unfolding_all decide
example : reportWritten (setBrightnessInLumen ⟨DeviceType.litra_beam, "p"⟩ 400) =
    [0x11, 0xff, 0x04, 0x4c, 0, 400, 0, 0, 0, 0, 0, 0, 0, 0, 0, 0, 0, 0, 0, 0] := by with_unfolding_all decide
example : setTemperatureInKelvin ⟨DeviceType.litra_glow, "p"⟩ (6001 / 2) =
    Except.error "Provided temperature must be an integer" := by with_unfolding_all decide
example : reportWritten (setTemperatureInKelvin ⟨DeviceType.litra_glow, "p"⟩ 2700) =
    [0x11, 0xff, 0x04, 0x9c, 10, 140, 0, 0, 0, 0, 0, 0, 0, 0, 0, 0, 0, 0, 0, 0] := by with_unfolding_all decide
example : jsRound (7 / 2) = 4 := by with_unfolding_all decide
example : jsRound (99 / 40) = 2 := by with_unfolding_all decide
example : setTemperaturePercentage ⟨DeviceType.litra_glow, "p"⟩ 0 =
    setTemperatureInKelvin ⟨DeviceType.litra_glow, "p"⟩ 2700 := by with_unfolding_all decide
